import Mathlib

/-!
Shallow embedding of `main.py` (CENDOJ Search API, v1.9) and verification of
the specification's claims about it.

Modelling conventions:
* Python strings are Lean `String`s; character-level processing works on
  `List Char`.  `str.lower()` is modelled by `pyLower`, restricted to the
  alphabet that occurs in this repository (ASCII letters plus the Spanish
  accented letters); every other character passes through unchanged, exactly
  as `str.lower()` leaves non-cased characters unchanged.
* Python floats are modelled by exact rationals (`ℚ`); all constants in the
  program (0.7, 0.3, 1095.0, 0.5) are exactly representable.
* `datetime.now(...)` is modelled by an explicit `today : Int` parameter
  (a proleptic-Gregorian day number); `datetime.date` values are `Date`
  records compared through their day number `toDays`.
* Network I/O of `urllib` is modelled by an oracle `net : String → ProbeOutcome`
  mapping a URL to the observed response (exception, or status + body).
* `dict` records of the mock corpus are the structure `CaseRec`; `r.copy()`
  is the identity under value semantics.
-/

/-- ASCII whitespace, the set stripped/collapsed by `str.strip()` and the
regex `\s+` over the strings occurring in this program. -/
def isWs (c : Char) : Bool :=
  c == ' ' || c == '\t' || c == '\n' || c == '\r' || c == '\x0b' || c == '\x0c'

/-- Upper/lower case pairs: ASCII letters plus the accented letters used in
the repository.  Models the restriction of Python `str.lower`/`str.upper`. -/
def lowerPairs : List (Char × Char) :=
  [('A', 'a'), ('B', 'b'), ('C', 'c'), ('D', 'd'), ('E', 'e'), ('F', 'f'),
   ('G', 'g'), ('H', 'h'), ('I', 'i'), ('J', 'j'), ('K', 'k'), ('L', 'l'),
   ('M', 'm'), ('N', 'n'), ('O', 'o'), ('P', 'p'), ('Q', 'q'), ('R', 'r'),
   ('S', 's'), ('T', 't'), ('U', 'u'), ('V', 'v'), ('W', 'w'), ('X', 'x'),
   ('Y', 'y'), ('Z', 'z'),
   ('Á', 'á'), ('É', 'é'), ('Í', 'í'), ('Ó', 'ó'), ('Ú', 'ú'), ('Ü', 'ü'),
   ('Ñ', 'ñ')]

/-- Python `str.lower()` on one character (repository alphabet). -/
def pyLower (c : Char) : Char :=
  match lowerPairs.find? (fun p => p.1 == c) with
  | some p => p.2
  | none => c

/-- Python `str.upper()` on one character (repository alphabet). -/
def pyUpper (c : Char) : Char :=
  match lowerPairs.find? (fun p => p.2 == c) with
  | some p => p.1
  | none => c

/-- Python `s.strip()` (both-ends whitespace strip). -/
def pyStrip (l : List Char) : List Char :=
  ((l.dropWhile isWs).reverse.dropWhile isWs).reverse

/-- Python `s.strip(q)` for a single strip character `q`. -/
def stripChar (q : Char) (l : List Char) : List Char :=
  ((l.dropWhile (fun c => c == q)).reverse.dropWhile (fun c => c == q)).reverse

/-- The regex substitution `re.sub(r"\s+", " ", s)`: every maximal whitespace
run becomes a single space.  The flag records whether the previous character
belonged to a whitespace run. -/
def collapseWs : Bool → List Char → List Char
  | _, [] => []
  | prevWs, c :: t =>
    if isWs c then
      if prevWs then collapseWs true t else ' ' :: collapseWs true t
    else c :: collapseWs false t

/-- The quote replacements `replace("’","'")`, `replace("“","\x22")`,
`replace("”","\x22")` on one character. -/
def replQuote (c : Char) : Char :=
  if c == '’' then '\'' else if c == '“' then '"' else if c == '”' then '"' else c

/-- `normalize_text` from `main.py`: strip, lowercase, collapse whitespace,
normalize curly quotes, strip surrounding straight quotes. -/
def normalize_text (l : List Char) : List Char :=
  stripChar '\'' (stripChar '"' ((collapseWs false ((pyStrip l).map pyLower)).map replQuote))

/-- `startsWith needle hay`: `needle` is a prefix of `hay` (char lists). -/
def startsWith : List Char → List Char → Bool
  | [], _ => true
  | _ :: _, [] => false
  | a :: as, b :: bs => a == b && startsWith as bs

/-- `hasSub needle hay`: Python's `needle in hay` substring test. -/
def hasSub (needle : List Char) : List Char → Bool
  | [] => needle.isEmpty
  | c :: t => startsWith needle (c :: t) || hasSub needle t

/-- Split a char list at a separator character (used for `"-"` in date
parsing and for whitespace tokenisation). -/
def splitSep (sep : Char) : List Char → List (List Char)
  | [] => [[]]
  | c :: t =>
    let r := splitSep sep t
    if c == sep then [] :: r
    else
      match r with
      | [] => [[c]]
      | h :: rest => (c :: h) :: rest

/-- Lexicographic (code-point) comparison of char lists: Python `str` `≤`. -/
def lexLe : List Char → List Char → Bool
  | [], _ => true
  | _ :: _, [] => false
  | a :: as, b :: bs =>
    if a.toNat < b.toNat then true
    else if b.toNat < a.toNat then false
    else lexLe as bs

/-- Stable insertion step: place `a` before the first element `b` with
`¬ le a b`.  `le x y` reads "x may come no later than y". -/
def insertOrd (le : α → α → Bool) (a : α) : List α → List α
  | [] => [a]
  | b :: t => if le a b then a :: b :: t else b :: insertOrd le a t

/-- Stable sort (models Python `list.sort`, which is stable): an element of
the original list is inserted before all strictly-later elements with an
equal key. -/
def isort (le : α → α → Bool) : List α → List α
  | [] => []
  | a :: t => insertOrd le a (isort le t)

/-- Join strings with a single-space separator at the char level:
Python single-space join of `parts`. -/
def joinCh : List (List Char) → List Char
  | [] => []
  | [s] => s
  | s :: rest => s ++ ' ' :: joinCh rest

/-! ## Dates -/

/-- A parsed `datetime.date`. -/
structure Date where
  y : Nat
  m : Nat
  d : Nat
deriving DecidableEq, Repr

/-- Gregorian leap-year test. -/
def isLeap (y : Nat) : Bool :=
  (y % 4 == 0 && y % 100 != 0) || y % 400 == 0

/-- Days in a month of year `y`. -/
def monthLen (y : Nat) (m : Nat) : Nat :=
  if m == 2 then (if isLeap y then 29 else 28)
  else if m == 4 || m == 6 || m == 9 || m == 11 then 30
  else 31

/-- Days of the year strictly before month `m`. -/
def daysBeforeMonth (leap : Bool) (m : Nat) : Nat :=
  ([0, 31, 59, 90, 120, 151, 181, 212, 243, 273, 304, 334].getD (m - 1) 0)
    + (if leap && decide (2 < m) then 1 else 0)

/-- Proleptic-Gregorian day number of a date (day 1 = 0001-01-01).  Only
differences and comparisons of this number are used, mirroring
`(date1 - date2).days` and `date1 < date2`. -/
def toDays (dt : Date) : Nat :=
  365 * (dt.y - 1) + (dt.y - 1) / 4 + (dt.y - 1) / 400
    + daysBeforeMonth (isLeap dt.y) dt.m + dt.d - (dt.y - 1) / 100

/-- Numeric value of a digit string. -/
def digitsVal (l : List Char) : Nat :=
  l.foldl (fun a c => 10 * a + (c.toNat - 48)) 0

/-- One numeric field of `strptime`: between `lo` and `hi` digits. -/
def parseField (lo hi : Nat) (l : List Char) : Option Nat :=
  if lo ≤ l.length ∧ l.length ≤ hi ∧ l.all (fun c => '0' ≤ c && c ≤ '9') then
    some (digitsVal l)
  else none

/-- `parse_date` from `main.py`: `strptime(d, "%Y-%m-%d")`, `None` on a
missing value or any parse failure (including invalid calendar dates). -/
def parse_date : Option String → Option Date
  | none => none
  | some s =>
    match splitSep '-' s.toList with
    | [ys, ms, ds] =>
      match parseField 4 4 ys, parseField 1 2 ms, parseField 1 2 ds with
      | some y, some m, some d =>
        if 1 ≤ y ∧ y ≤ 9999 ∧ 1 ≤ m ∧ m ≤ 12 ∧ 1 ≤ d ∧ d ≤ monthLen y m then
          some ⟨y, m, d⟩
        else none
      | _, _, _ => none
    | _ => none

/-! ## Static configuration -/

def CENDOJ_DIRECTO_PRE : String := "https://www.poderjudicial.es/search/cedula.jsp?id="

def PORTAL_BUSCADOR : String := "https://www.poderjudicial.es/search/indexAN.jsp"

def GOOGLE_PRE : String := "https://www.google.com/search?q=site%3Apoderjudicial.es+%22"

def GOOGLE_POST : String := "%22"

/-- The `SYNONYMS` dict, in insertion order. -/
def SYNONYMS : List (String × List String) :=
  [("suelo no urbanizable", ["suelo rústico", "suelos protegidos"]),
   ("fuera de ordenación", ["situación de fuera de ordenación"]),
   ("volumen disconforme", ["edificación disconforme"]),
   ("garaje ilegal", ["aparcamiento ilegal", "cochera sin licencia"])]

def URBANISMO_CATALAN_TRIGGERS : List String :=
  ["urbanizable", "suelo no urbanizable", "fuera de ordenación",
   "edificación disconforme", "licencia urbanística", "planeamiento",
   "disciplina urbanística", "volumen disconforme", "ordenación urbanística"]

/-- `expand_query` from `main.py`: normalized query plus the synonyms added
for the note, in table order. -/
def expand_query (q : String) : List Char × List String :=
  let qn := normalize_text q.toList
  (qn,
   (SYNONYMS.map (fun kv =>
      if hasSub kv.1.toList qn then
        kv.2.filter (fun v => !hasSub v.toList qn)
      else [])).flatten)

/-- `detect_urbanismo_catalan` from `main.py`. -/
def detect_urbanismo_catalan (qn : List Char) : Bool :=
  URBANISMO_CATALAN_TRIGGERS.any (fun t => hasSub t.toList qn)

/-! ## Corpus -/

/-- One mock corpus record (`EXAMPLES` entry).  Identifier fields are
`Option` because `dict.get` may yield `None` for an arbitrary record. -/
structure CaseRec where
  id_cendoj : Option String
  titulo : String
  organo : String
  sala : String
  fecha : String
  relevancia : ℚ
  ecli : Option String
  roj : Option String
  tags : List String
deriving DecidableEq, Repr

/-- First `EXAMPLES` record of `main.py`. -/
def ex1 : CaseRec :=
  { id_cendoj := some "0801932001202400077",
    titulo := "Licencia urbanística en suelo no urbanizable: criterios recientes",
    organo := "Tribunal Superior de Justicia de Cataluña (TSJC)",
    sala := "Sala de lo Contencioso-Administrativo",
    fecha := "2024-02-12",
    relevancia := 19/25,
    ecli := some "ECLI:ES:TS:2024:1234",
    roj := some "STS 1234/2024",
    tags := ["urbanizable", "suelo no urbanizable"] }

/-- Second `EXAMPLES` record of `main.py`. -/
def ex2 : CaseRec :=
  { id_cendoj := some "28079130012022000456",
    titulo := "Sentencia ejemplo sobre \x27fuera de ordenación\x27 en suelo urbano",
    organo := "Tribunal Supremo (TS)",
    sala := "Sala Tercera (Cont.-Adm.)",
    fecha := "2022-11-03",
    relevancia := 41/50,
    ecli := some "ECLI:ES:TS:2022:456",
    roj := some "STS 456/2022",
    tags := ["ordenación", "fuera de ordenación"] }

/-- Third `EXAMPLES` record of `main.py`. -/
def ex3 : CaseRec :=
  { id_cendoj := some "08019320012023000123",
    titulo := "Sentencia ejemplo sobre \x27volumen disconforme\x27",
    organo := "Tribunal Superior de Justicia de Cataluña (TSJC)",
    sala := "Sala de lo Contencioso-Administrativo",
    fecha := "2023-05-10",
    relevancia := 9/50,
    ecli := some "ECLI:ES:TSJC:2023:789",
    roj := some "STSJC 789/2023",
    tags := ["ordenación", "volumen disconforme"] }

/-- The `EXAMPLES` dataset of `main.py`, verbatim. -/
def EXAMPLES : List CaseRec := [ex1, ex2, ex3]

/-! ## Hybrid ranking -/

/-- Clamp to `[0,1]`: `max(0.0, min(1.0, x))`. -/
def clamp01 (x : ℚ) : ℚ := max 0 (min 1 x)

/-- The recency factor computed inside `hybrid_score` for a parsed date:
`max(0.0, 1.0 - (delta_days / 1095.0))` with
`delta_days = max(0, (today - d).days)`. -/
def recencyFrom (today : Int) (dt : Date) : ℚ :=
  let delta : Int := max 0 (today - (toDays dt : Int))
  max 0 (1 - (delta : ℚ) / 1095)

/-- `hybrid_score` from `main.py`.  A falsy (`None` or empty) date string
returns the clamped relevance alone; an unparseable date yields recency 0.5;
otherwise the linear three-year decay applies. -/
def hybrid_score (today : Int) (rel : ℚ) (fecha : Option String) : ℚ :=
  let r := clamp01 rel
  if (match fecha with | none => true | some s => s.isEmpty) then r
  else
    match parse_date fecha with
    | some dt => 7/10 * r + 3/10 * recencyFrom today dt
    | none => 7/10 * r + 3/10 * (1/2)

/-! ## Link building and validation -/

/-- Observable behaviour of a URL probe: an exception (network error or
timeout), or a response with an HTTP status and a body prefix. -/
inductive ProbeOutcome where
  | exc : ProbeOutcome
  | resp : Nat → String → ProbeOutcome
deriving DecidableEq

/-- `validar_enlace` from `main.py` relative to a network oracle: `True`
only for a 200 response whose (lowercased) body shows no portal error text. -/
def validar_enlace (net : String → ProbeOutcome) (url : String) : Bool :=
  match net url with
  | .exc => false
  | .resp st body =>
    if st ≠ 200 then false
    else
      let b := body.toList.map pyLower
      if hasSub ("404 page error").toList b
          || hasSub ("la página que buscas no existe").toList b then false
      else true

/-- Python `urllib.parse.quote_plus` on one ASCII character. -/
def quoteChar (c : Char) : List Char :=
  if c == ' ' then ['+']
  else if ('0' ≤ c && c ≤ '9') || ('a' ≤ c && c ≤ 'z') || ('A' ≤ c && c ≤ 'Z')
      || c == '_' || c == '.' || c == '-' || c == '~' then [c]
  else
    let n := c.toNat
    ['%', ("0123456789ABCDEF").toList.getD (n / 16 % 16) '0',
          ("0123456789ABCDEF").toList.getD (n % 16) '0']

/-- Python `urllib.parse.quote_plus` (ASCII inputs, as in the repository). -/
def quote_plus (s : String) : String :=
  String.mk (s.toList.map quoteChar).flatten

/-- Python `s.strip()` on a `String`. -/
def pyStripStr (s : String) : String := String.mk (pyStrip s.toList)

/-- The link fields set by `build_links`. -/
structure Links where
  url_directo : Option String
  url_estable : Option String
  url_estable_secundaria : Option String
  enlace_preferido : Option String
  enlace_directo_ok : Option Bool
  estrategia_enlace : Option String
deriving DecidableEq, Repr

/-- `build_links` from `main.py`: builds the direct, stable and secondary
stable URLs; default preferred link is the stable one. -/
def build_links (r : CaseRec) : Links :=
  let ecli := pyStripStr (r.ecli.getD "")
  let roj := pyStripStr (r.roj.getD "")
  let url_directo : Option String :=
    match r.id_cendoj with
    | some i => if i.isEmpty then none else some (CENDOJ_DIRECTO_PRE ++ i)
    | none => none
  let key : String := if ecli.isEmpty then roj else ecli
  let q_str : String := if key.isEmpty then "" else quote_plus key
  let url_estable : String :=
    if q_str.isEmpty then PORTAL_BUSCADOR else PORTAL_BUSCADOR ++ "?q=" ++ q_str
  let gkey : String := if key.isEmpty then "CENDOJ" else quote_plus key
  { url_directo := url_directo,
    url_estable := some url_estable,
    url_estable_secundaria := some (GOOGLE_PRE ++ gkey ++ GOOGLE_POST),
    enlace_preferido := some url_estable,
    enlace_directo_ok := none,
    estrategia_enlace := some "estable" }

/-! ## Corpus matching -/

/-- The single-pass match test of `search_examples`: the normalized query is
a substring of the normalized title, or some tag is a substring of the query,
or the query is a substring of the space-joined tag string. -/
def matchesQ (qn : List Char) (r : CaseRec) : Bool :=
  hasSub qn (normalize_text r.titulo.toList)
    || r.tags.any (fun t => hasSub t.toList qn)
    || hasSub qn (normalize_text (joinCh (r.tags.map (fun t => t.toList))))

/-- The date-window test of `search_examples` (inclusive bounds; a record
with an unparseable date is never excluded). -/
def dateOk (dd dh : Option Date) (r : CaseRec) : Bool :=
  let f := parse_date (some r.fecha)
  !(match dd, f with
    | some a, some fd => decide (toDays fd < toDays a)
    | _, _ => false)
  && !(match dh, f with
    | some b, some fd => decide (toDays b < toDays fd)
    | _, _ => false)

/-- Descending hybrid-score order used by `search_examples`
(`sort(key=hybrid_score…, reverse=True)`, stable). -/
def hybridLe (today : Int) (a b : CaseRec) : Bool :=
  decide (hybrid_score today b.relevancia (some b.fecha)
    ≤ hybrid_score today a.relevancia (some a.fecha))

/-- `search_examples` from `main.py`, with the module-level corpus made an
explicit parameter (`search_examples = search_in EXAMPLES`). -/
def search_in (corpus : List CaseRec) (today : Int) (qn : List Char)
    (dd dh : Option Date) : List CaseRec :=
  isort (hybridLe today) (corpus.filter (fun r => matchesQ qn r && dateOk dd dh r))

/-! ## Response assembly -/

/-- `build_summary` from `main.py`. -/
def build_summary (r : CaseRec) : String :=
  r.titulo ++ " (" ++ r.organo ++ " - " ++ r.sala ++ "). Fecha: " ++ r.fecha ++ "."

/-- The `Resultado` response model. -/
structure Resultado where
  titulo : String
  organo : String
  sala : String
  fecha : String
  relevancia : ℚ
  resumen : Option String
  id_cendoj : Option String
  roj : Option String
  ecli : Option String
  url_directo : Option String
  url_estable : Option String
  url_estable_secundaria : Option String
  enlace_preferido : Option String
  enlace_directo_ok : Option Bool
  estrategia_enlace : Option String
deriving DecidableEq, Repr

/-- The `Respuesta` response model. -/
structure Respuesta where
  query : String
  total : Nat
  resultados : List Resultado
  nota : Option String
deriving DecidableEq, Repr

/-- `make_nota` from `main.py`: the uniform Motivo/Acción/Info note. -/
def make_nota (motivo accion info : Option String) : Option String :=
  let parts : List (List Char) :=
    (match motivo with | some m => [("Motivo: ").toList ++ m.toList] | none => [])
    ++ (match accion with | some a => [("Acción: ").toList ++ a.toList] | none => [])
    ++ (match info with | some i => [("Info: ").toList ++ i.toList] | none => [])
  if parts.isEmpty then none
  else some (String.mk (("⚠️ Nota: ").toList ++ joinCh parts))

def swapMsg : String := "Se corrigió el rango de fechas (invertido)."

def orgRelaxMsg : String :=
  "No se encontraron coincidencias exactas con el órgano solicitado; se muestran resultados cercanos."

def mismMsg : String :=
  "Algún resultado no coincide exactamente con el órgano solicitado."

def expertMsg : String :=
  "Experto temático: derecho urbanístico catalán (priorización TSJC y normativa catalana)."

def hybridBit : String := "orden: ranking híbrido (relevancia + actualidad)"

def expertBit : String := "experto temático (urbanismo catalán) activo"

def noResMotivo : String := "No se han encontrado resultados exactos."

def noResAccion : String := "Prueba sinónimos o ajusta el rango temporal."

def noResInfo : String := "Ranking híbrido (relevancia + actualidad) aplicado."

/-- The synonym note text for a non-empty `syn_added` list. -/
def synMsg (added : List String) : String :=
  "Se añadieron sinónimos: " ++ String.intercalate ", " added ++ "."

/-- The broken-direct-link note for one record (`None` prints as "None"). -/
def brokenFor (id : Option String) : String :=
  "El enlace directo de " ++ (match id with | some s => s | none => "None")
    ++ " no respondió como esperado; se usa enlace estable."

/-- Date-range auto-correction of `buscar_cendoj` (lines 284–286): when both
bounds parse and `desde > hasta`, swap them and flag the correction. -/
def fixRange (d1 d2 : Option Date) : Option Date × Option Date × Bool :=
  match d1, d2 with
  | some a, some b =>
    if toDays b < toDays a then (some b, some a, true) else (some a, some b, false)
  | _, _ => (d1, d2, false)

/-- The effective organ filter string: `normalize_text(organo) if organo else
None`, with the later truthiness gate `if requested_org` folded in. -/
def requestedOrg (organo : Option String) : Option (List Char) :=
  match organo with
  | none => none
  | some o =>
    if o.isEmpty then none
    else
      let ro := normalize_text o.toList
      if ro.isEmpty then none else some ro

/-- The organ-filter stage of `buscar_cendoj`: strict substring filter on the
normalized organ, falling back to the unfiltered list (with a note) when the
filter removes everything but candidates exist. -/
def orgFiltered (today : Int) (qn : List Char) (dd dh : Option Date)
    (rq : Option (List Char)) : List CaseRec × List String :=
  let raw0 := search_in EXAMPLES today qn dd dh
  match rq with
  | none => (raw0, [])
  | some ro =>
    let filt := raw0.filter (fun r => hasSub ro (normalize_text r.organo.toList))
    if filt.isEmpty then
      if raw0.isEmpty then (filt, []) else (raw0, [orgRelaxMsg])
    else (filt, [])

/-- The explicit date re-sort of `buscar_cendoj` (stable, by the raw date
string); any other order value keeps the hybrid order. -/
def ordenStage (orden : String) (l : List CaseRec) : List CaseRec :=
  if orden = "fecha_desc" then
    isort (fun a b => lexLe b.fecha.toList a.fecha.toList) l
  else if orden = "fecha_asc" then
    isort (fun a b => lexLe a.fecha.toList b.fecha.toList) l
  else l

/-- The per-result formatting step of `buscar_cendoj`: project the record,
build links, then run the optional direct-link validation. -/
def formatResult (net : String → ProbeOutcome) (va : Bool) (r : CaseRec) : Resultado :=
  let L := build_links r
  let base : Resultado :=
    { titulo := r.titulo, organo := r.organo, sala := r.sala, fecha := r.fecha,
      relevancia := r.relevancia, resumen := some (build_summary r),
      id_cendoj := r.id_cendoj, roj := r.roj, ecli := r.ecli,
      url_directo := L.url_directo, url_estable := L.url_estable,
      url_estable_secundaria := L.url_estable_secundaria,
      enlace_preferido := L.enlace_preferido,
      enlace_directo_ok := L.enlace_directo_ok,
      estrategia_enlace := L.estrategia_enlace }
  if va then
    match L.url_directo with
    | some u =>
      if u.isEmpty then
        { base with enlace_preferido := L.url_estable,
                    estrategia_enlace := some "estable" }
      else if validar_enlace net u then
        { base with enlace_preferido := some u,
                    estrategia_enlace := some "directo",
                    enlace_directo_ok := some true }
      else
        { base with enlace_preferido := L.url_estable,
                    estrategia_enlace := some "estable",
                    enlace_directo_ok := some false }
    | none =>
      { base with enlace_preferido := L.url_estable,
                  estrategia_enlace := some "estable" }
  else
    { base with enlace_preferido := L.url_estable,
                estrategia_enlace := some "estable" }

/-- The note entries appended while formatting one result: broken-direct-link
note, then organ-mismatch note. -/
def resultNotes (net : String → ProbeOutcome) (va : Bool)
    (rq : Option (List Char)) (r : CaseRec) : List String :=
  let L := build_links r
  let broken : List String :=
    if va then
      match L.url_directo with
      | some u =>
        if u.isEmpty then []
        else if validar_enlace net u then [] else [brokenFor r.id_cendoj]
      | none => []
    else []
  let mism : List String :=
    match rq with
    | some ro =>
      if hasSub ro (normalize_text r.organo.toList) then [] else [mismMsg]
    | none => []
  broken ++ mism

/-- The final uniform note of the non-empty branch of `buscar_cendoj`:
`make_nota(info=" ".join(nota_msgs + info_bits))` (or no note at all when
both lists are empty). -/
def respondNota (orden : String) (experto : Bool) (notas : List String) : Option String :=
  let bits : List String :=
    (if startsWith ("relevancia").toList orden.toList then [hybridBit] else [])
    ++ (if experto then [expertBit] else [])
  let info : Option String :=
    if notas.isEmpty && bits.isEmpty then none
    else some (String.mk (joinCh ((notas ++ bits).map (fun s => s.toList))))
  make_nota none none info

/-- The response-assembly tail of `buscar_cendoj`: format the limited list,
collect the per-result notes, and produce either the no-results note or the
uniform Info note. -/
def respond (net : String → ProbeOutcome) (query orden : String)
    (experto va : Bool) (rq : Option (List Char)) (notasPre : List String)
    (taken : List CaseRec) : Respuesta :=
  let final := taken.map (formatResult net va)
  let notas := notasPre ++ (taken.map (resultNotes net va rq)).flatten
  if final.isEmpty then
    { query := query, total := 0, resultados := [],
      nota := make_nota (some noResMotivo) (some noResAccion) (some noResInfo) }
  else
    { query := query, total := final.length, resultados := final,
      nota := respondNota orden experto notas }

/-- `buscar_cendoj` from `main.py` (the `/buscar-cendoj` endpoint body),
parameterised by the network oracle and the current day number. -/
def buscar (net : String → ProbeOutcome) (today : Int) (query : String)
    (desde hasta : Option String) (orden : String) (limite : Nat)
    (validar_enlaces : Bool) (organo : Option String) : Respuesta :=
  let qs := expand_query query
  let qn := qs.1
  let synNotes : List String := if qs.2.isEmpty then [] else [synMsg qs.2]
  let experto := detect_urbanismo_catalan qn
  let expNotes : List String := if experto then [expertMsg] else []
  let fr := fixRange (parse_date desde) (parse_date hasta)
  let swapNotes : List String := if fr.2.2 then [swapMsg] else []
  let rq := requestedOrg organo
  let og := orgFiltered today qn fr.1 fr.2.1 rq
  let taken := (ordenStage orden og.1).take limite
  respond net query orden experto validar_enlaces rq
    (synNotes ++ expNotes ++ swapNotes ++ og.2) taken

/-- Whether the response note contains a given message as a substring. -/
def notaHas (msg : String) (resp : Respuesta) : Bool :=
  match resp.nota with
  | some s => hasSub msg.toList s.toList
  | none => false

/-! ## Spec-side definitions (for refinement comparison only) -/

/-- Modelled from the spec: the "searchable text" of a case, title + organ +
chamber, normalized like the query. -/
def searchableText (r : CaseRec) : List Char :=
  normalize_text (r.titulo ++ " " ++ r.organo ++ " " ++ r.sala).toList

/-- Modelled from the spec: the whitespace tokens of the normalized query. -/
def tokensOf (qn : List Char) : List (List Char) :=
  (splitSep ' ' qn).filter (fun t => !t.isEmpty)

/-- Modelled from the spec: step 1 (strict) of the relaxation ladder — every
query token must appear in the case's searchable text. -/
def ladderStrict (qn : List Char) (corpus : List CaseRec) : List CaseRec :=
  corpus.filter (fun r => (tokensOf qn).all (fun t => hasSub t (searchableText r)))

/-- Modelled from the spec: the relevance percentage — declared relevance
clamped to `[0,1]`, then converted to a percentage. -/
def relPct (x : ℚ) : ℚ := clamp01 x * 100

/-! ## Helper lemmas: characters -/

theorem pyLower_pyUpper (c : Char) : pyLower (pyUpper c) = pyLower c := by
  cases h : lowerPairs.find? (fun p => p.2 == c) with
  | none => simp [pyUpper, h]
  | some p =>
    have hp : p ∈ lowerPairs := List.mem_of_find?_eq_some h
    have hc : p.2 = c := by simpa using List.find?_some h
    have hall : lowerPairs.all (fun q => pyLower q.1 == pyLower q.2) = true := by decide
    have h2 : pyLower p.1 = pyLower p.2 := by
      simpa using List.all_eq_true.mp hall p hp
    rw [pyUpper, h]
    rw [h2, hc]

theorem isWs_pyUpper (c : Char) : isWs (pyUpper c) = isWs c := by
  cases h : lowerPairs.find? (fun p => p.2 == c) with
  | none => simp [pyUpper, h]
  | some p =>
    have hp : p ∈ lowerPairs := List.mem_of_find?_eq_some h
    have hc : p.2 = c := by simpa using List.find?_some h
    have hall : lowerPairs.all (fun q => isWs q.1 == isWs q.2) = true := by decide
    have h2 : isWs p.1 = isWs p.2 := by
      simpa using List.all_eq_true.mp hall p hp
    rw [pyUpper, h]
    rw [h2, hc]

theorem dropWhile_isWs_map_pyUpper (l : List Char) :
    (l.map pyUpper).dropWhile isWs = (l.dropWhile isWs).map pyUpper := by
  induction l with
  | nil => rfl
  | cons c t ih =>
    simp only [List.map_cons, List.dropWhile_cons, isWs_pyUpper]
    split
    · exact ih
    · rfl

theorem pyStrip_map_pyUpper (l : List Char) :
    pyStrip (l.map pyUpper) = (pyStrip l).map pyUpper := by
  unfold pyStrip
  rw [dropWhile_isWs_map_pyUpper, ← List.map_reverse, dropWhile_isWs_map_pyUpper,
    ← List.map_reverse]

theorem map_pyLower_map_pyUpper (l : List Char) :
    (l.map pyUpper).map pyLower = l.map pyLower := by
  induction l with
  | nil => rfl
  | cons c t ih => simp [pyLower_pyUpper, ih]

/-! ## Helper lemmas: substrings -/

theorem startsWith_refl (l : List Char) : startsWith l l = true := by
  induction l with
  | nil => rfl
  | cons c t ih => simp [startsWith, ih]

theorem startsWith_append (n h b : List Char) (hp : startsWith n h = true) :
    startsWith n (h ++ b) = true := by
  induction n generalizing h with
  | nil => rfl
  | cons c t ih =>
    cases h with
    | nil => simp [startsWith] at hp
    | cons d u =>
      simp only [startsWith, Bool.and_eq_true] at hp
      simp only [List.cons_append, startsWith, Bool.and_eq_true]
      exact ⟨hp.1, ih u hp.2⟩

theorem hasSub_nil_left (b : List Char) : hasSub [] b = true := by
  cases b <;> simp [hasSub, startsWith]

theorem hasSub_self (l : List Char) : hasSub l l = true := by
  cases l with
  | nil => rfl
  | cons c t => simp [hasSub, startsWith_refl]

theorem hasSub_cons (n : List Char) (c : Char) (t : List Char)
    (hp : hasSub n t = true) : hasSub n (c :: t) = true := by
  simp [hasSub, hp]

theorem hasSub_append_left (n a b : List Char) (hp : hasSub n a = true) :
    hasSub n (a ++ b) = true := by
  induction a with
  | nil =>
    cases n with
    | nil => exact hasSub_nil_left b
    | cons _ _ => simp [hasSub] at hp
  | cons c t ih =>
    simp only [hasSub, Bool.or_eq_true] at hp
    rcases hp with hp | hp
    · simp only [List.cons_append, hasSub, Bool.or_eq_true]
      left
      have := startsWith_append n (c :: t) b hp
      simpa using this
    · simp only [List.cons_append, hasSub, Bool.or_eq_true]
      right
      exact ih hp

theorem hasSub_append_right (n a b : List Char) (hp : hasSub n b = true) :
    hasSub n (a ++ b) = true := by
  induction a with
  | nil => exact hp
  | cons c t ih => exact hasSub_cons n c (t ++ b) ih

theorem hasSub_joinCh (x : List Char) (ls : List (List Char)) (hx : x ∈ ls) :
    hasSub x (joinCh ls) = true := by
  induction ls with
  | nil => cases hx
  | cons s rest ih =>
    cases rest with
    | nil =>
      have hxs : x = s := by simpa using hx
      subst hxs
      simpa [joinCh] using hasSub_self x
    | cons s2 r2 =>
      simp only [joinCh]
      rcases List.mem_cons.mp hx with h | h
      · subst h
        exact hasSub_append_left x x (' ' :: joinCh (s2 :: r2)) (hasSub_self x)
      · exact hasSub_append_right x s (' ' :: joinCh (s2 :: r2))
          (hasSub_cons x ' ' (joinCh (s2 :: r2)) (ih h))

/-! ## Helper lemmas: stable sort -/

theorem insertOrd_perm (le : α → α → Bool) (a : α) (l : List α) :
    List.Perm (insertOrd le a l) (a :: l) := by
  induction l with
  | nil => exact List.Perm.refl _
  | cons b t ih =>
    simp only [insertOrd]
    split
    · exact List.Perm.refl _
    · exact (List.Perm.cons b ih).trans (List.Perm.swap a b t)

theorem isort_perm (le : α → α → Bool) (l : List α) : List.Perm (isort le l) l := by
  induction l with
  | nil => exact List.Perm.refl _
  | cons a t ih =>
    exact (insertOrd_perm le a (isort le t)).trans (List.Perm.cons a ih)

theorem mem_isort (le : α → α → Bool) (l : List α) (x : α) :
    x ∈ isort le l ↔ x ∈ l :=
  (isort_perm le l).mem_iff

theorem pairwise_insertOrd (le : α → α → Bool)
    (total : ∀ a b, le a b = true ∨ le b a = true)
    (htrans : ∀ a b c, le a b = true → le b c = true → le a c = true)
    (a : α) (l : List α) (hl : l.Pairwise (fun x y => le x y = true)) :
    (insertOrd le a l).Pairwise (fun x y => le x y = true) := by
  induction l with
  | nil => simp [insertOrd]
  | cons b t ih =>
    rcases List.pairwise_cons.mp hl with ⟨hb, ht⟩
    simp only [insertOrd]
    split
    case isTrue h =>
      refine List.pairwise_cons.mpr ⟨?_, hl⟩
      intro x hx
      rcases List.mem_cons.mp hx with rfl | hx
      · exact h
      · exact htrans a b x h (hb x hx)
    case isFalse h =>
      refine List.pairwise_cons.mpr ⟨?_, ih ht⟩
      intro x hx
      have hx' : x = a ∨ x ∈ t := by
        have := (insertOrd_perm le a t).mem_iff.mp hx
        simpa using this
      rcases hx' with rfl | hx'
      · rcases total x b with hab | hba
        · exact absurd hab h
        · exact hba
      · exact hb x hx'

theorem isort_pairwise (le : α → α → Bool)
    (total : ∀ a b, le a b = true ∨ le b a = true)
    (htrans : ∀ a b c, le a b = true → le b c = true → le a c = true)
    (l : List α) :
    (isort le l).Pairwise (fun x y => le x y = true) := by
  induction l with
  | nil => simp [isort]
  | cons a t ih => exact pairwise_insertOrd le total htrans a (isort le t) ih

/-! ## Helper lemmas: lexicographic order -/

theorem lexLe_total (a b : List Char) : lexLe a b = true ∨ lexLe b a = true := by
  induction a generalizing b with
  | nil => left; rfl
  | cons c t ih =>
    cases b with
    | nil => right; rfl
    | cons d u =>
      by_cases h1 : c.toNat < d.toNat
      · left; simp [lexLe, h1]
      · by_cases h2 : d.toNat < c.toNat
        · right; simp [lexLe, h2]
        · rcases ih u with h | h
          · left; simp [lexLe, h1, h2, h]
          · right; simp [lexLe, h1, h2, h]

theorem lexLe_trans : ∀ a b c : List Char,
    lexLe a b = true → lexLe b c = true → lexLe a c = true := by
  intro a
  induction a with
  | nil => intro b c _ _; rfl
  | cons x t ih =>
    intro b c h1 h2
    cases b with
    | nil => simp [lexLe] at h1
    | cons y u =>
      cases c with
      | nil => simp [lexLe] at h2
      | cons z v =>
        simp only [lexLe] at h1 h2 ⊢
        by_cases hxy : x.toNat < y.toNat
        · by_cases hyz : y.toNat < z.toNat
          · simp [show x.toNat < z.toNat from hxy.trans hyz]
          · by_cases hzy : z.toNat < y.toNat
            · rw [if_neg hyz, if_pos hzy] at h2; cases h2
            · simp [show x.toNat < z.toNat by omega]
        · by_cases hyx : y.toNat < x.toNat
          · rw [if_neg hxy, if_pos hyx] at h1; cases h1
          · by_cases hyz : y.toNat < z.toNat
            · simp [show x.toNat < z.toNat by omega]
            · by_cases hzy : z.toNat < y.toNat
              · rw [if_neg hyz, if_pos hzy] at h2; cases h2
              · rw [if_neg hxy, if_neg hyx] at h1
                rw [if_neg hyz, if_neg hzy] at h2
                rw [if_neg (show ¬ x.toNat < z.toNat by omega),
                    if_neg (show ¬ z.toNat < x.toNat by omega)]
                exact ih u v h1 h2

theorem hybridLe_total (today : Int) (a b : CaseRec) :
    hybridLe today a b = true ∨ hybridLe today b a = true := by
  unfold hybridLe
  rcases le_total (hybrid_score today b.relevancia (some b.fecha))
      (hybrid_score today a.relevancia (some a.fecha)) with h | h
  · left; exact decide_eq_true h
  · right; exact decide_eq_true h

theorem hybridLe_trans (today : Int) (a b c : CaseRec)
    (h1 : hybridLe today a b = true) (h2 : hybridLe today b c = true) :
    hybridLe today a c = true := by
  unfold hybridLe at *
  exact decide_eq_true (le_trans (of_decide_eq_true h2) (of_decide_eq_true h1))

/-! ## Helper lemmas: pipeline membership -/

theorem mem_search_in (corpus : List CaseRec) (today : Int) (qn : List Char)
    (dd dh : Option Date) (r : CaseRec) :
    r ∈ search_in corpus today qn dd dh ↔
      r ∈ corpus ∧ matchesQ qn r = true ∧ dateOk dd dh r = true := by
  unfold search_in
  rw [(isort_perm _ _).mem_iff, List.mem_filter]
  simp [Bool.and_eq_true]

theorem mem_orgFiltered (today : Int) (qn : List Char) (dd dh : Option Date)
    (rq : Option (List Char)) (r : CaseRec)
    (h : r ∈ (orgFiltered today qn dd dh rq).1) :
    r ∈ search_in EXAMPLES today qn dd dh := by
  unfold orgFiltered at h
  cases rq with
  | none => exact h
  | some ro =>
    dsimp only at h
    split at h
    · split at h
      · exact (List.mem_filter.mp h).1
      · exact h
    · exact (List.mem_filter.mp h).1

theorem mem_ordenStage (orden : String) (l : List CaseRec) (r : CaseRec)
    (h : r ∈ ordenStage orden l) : r ∈ l := by
  unfold ordenStage at h
  split at h
  · exact (isort_perm _ _).mem_iff.mp h
  · split at h
    · exact (isort_perm _ _).mem_iff.mp h
    · exact h

theorem mem_respond (net : String → ProbeOutcome) (query orden : String)
    (experto va : Bool) (rq : Option (List Char)) (notasPre : List String)
    (taken : List CaseRec) (res : Resultado)
    (h : res ∈ (respond net query orden experto va rq notasPre taken).resultados) :
    ∃ r, r ∈ taken ∧ res = formatResult net va r := by
  unfold respond at h
  dsimp only at h
  split at h
  · simp at h
  · dsimp only at h
    rcases List.mem_map.mp h with ⟨r, hr, hfr⟩
    exact ⟨r, hr, hfr.symm⟩

theorem mem_buscar (net : String → ProbeOutcome) (today : Int) (query : String)
    (desde hasta : Option String) (orden : String) (limite : Nat)
    (va : Bool) (organo : Option String) (res : Resultado)
    (h : res ∈ (buscar net today query desde hasta orden limite va organo).resultados) :
    ∃ r, r ∈ EXAMPLES ∧ res = formatResult net va r := by
  unfold buscar at h
  dsimp only at h
  rcases mem_respond _ _ _ _ _ _ _ _ _ h with ⟨r, hr, hres⟩
  refine ⟨r, ?_, hres⟩
  have h2 : r ∈ ordenStage orden (orgFiltered today (expand_query query).1
      (fixRange (parse_date desde) (parse_date hasta)).1
      (fixRange (parse_date desde) (parse_date hasta)).2.1
      (requestedOrg organo)).1 := List.mem_of_mem_take hr
  have h3 := mem_ordenStage _ _ _ h2
  have h4 := mem_orgFiltered _ _ _ _ _ _ h3
  exact ((mem_search_in _ _ _ _ _ _).mp h4).1

/-! ## Helper lemmas: formatResult field preservation -/

theorem formatResult_fecha (net : String → ProbeOutcome) (va : Bool) (r : CaseRec) :
    (formatResult net va r).fecha = r.fecha := by
  unfold formatResult
  dsimp only
  split
  · split
    · split
      · rfl
      · split <;> rfl
    · rfl
  · rfl

theorem formatResult_relevancia (net : String → ProbeOutcome) (va : Bool) (r : CaseRec) :
    (formatResult net va r).relevancia = r.relevancia := by
  unfold formatResult
  dsimp only
  split
  · split
    · split
      · rfl
      · split <;> rfl
    · rfl
  · rfl

/-! ## Helper lemmas: notes -/

theorem hasSub_make_nota_info (m : List Char) (i : String)
    (h : hasSub m i.toList = true) :
    ∃ s, make_nota none none (some i) = some s ∧ hasSub m s.toList = true := by
  refine ⟨_, rfl, ?_⟩
  show hasSub m (("⚠️ Nota: ").toList ++ joinCh [("Info: ").toList ++ i.toList]) = true
  refine hasSub_append_right _ _ _ ?_
  show hasSub m (("Info: ").toList ++ i.toList) = true
  exact hasSub_append_right _ _ _ h

theorem respondNota_hasSub (orden : String) (experto : Bool) (notas : List String)
    (msg : String) (hmem : msg ∈ notas) :
    ∃ s, respondNota orden experto notas = some s ∧ hasSub msg.toList s.toList = true := by
  unfold respondNota
  dsimp only
  have hni : notas.isEmpty = false := by
    cases notas with
    | nil => cases hmem
    | cons a t => rfl
  rw [hni]
  simp only [Bool.false_and, Bool.false_eq_true, if_false]
  refine hasSub_make_nota_info _ _ ?_
  show hasSub msg.toList (joinCh ((notas ++ _).map (fun s => s.toList))) = true
  exact hasSub_joinCh _ _ (List.mem_map_of_mem _ (List.mem_append_left _ hmem))

theorem notaHas_eq (msg : String) (resp : Respuesta) (s : String)
    (h : resp.nota = some s) : notaHas msg resp = hasSub msg.toList s.toList := by
  unfold notaHas
  rw [h]

theorem respond_resultados_sub (net : String → ProbeOutcome) (query orden : String)
    (experto va : Bool) (rq : Option (List Char)) (notasPre : List String)
    (taken : List CaseRec) :
    (respond net query orden experto va rq notasPre taken).resultados = [] ∨
      (respond net query orden experto va rq notasPre taken).resultados
        = taken.map (formatResult net va) := by
  unfold respond
  dsimp only
  split
  · left; rfl
  · right; rfl

theorem respond_nota_of_nonempty (net : String → ProbeOutcome) (query orden : String)
    (experto va : Bool) (rq : Option (List Char)) (notasPre : List String)
    (taken : List CaseRec)
    (hne : (respond net query orden experto va rq notasPre taken).resultados ≠ []) :
    (respond net query orden experto va rq notasPre taken).nota
      = respondNota orden experto
          (notasPre ++ (taken.map (resultNotes net va rq)).flatten) := by
  unfold respond at *
  dsimp only at *
  by_cases hfin : (taken.map (formatResult net va)).isEmpty = true
  · rw [if_pos hfin] at hne
    exact absurd rfl hne
  · rw [if_neg hfin]

/-! ## Claims -/

/-- Claim C1, counterexample: for the query "criterios tribunal", the strict
step of the spec's relaxation ladder is non-empty on the corpus (every token
occurs in the first case's title + organ + chamber), yet `search_examples`
returns the empty list — so the matcher does not evaluate the ladder and does
not stop at the first non-empty step. -/
theorem c1_cx :
    search_in EXAMPLES 0 (normalize_text ("criterios tribunal").toList) none none = []
    ∧ ladderStrict (normalize_text ("criterios tribunal").toList) EXAMPLES ≠ [] := by
  constructor
  · decide
  · decide

/-- Claim C1, amended: the corpus matcher performs one single-pass match (no
relaxation ladder and no relaxation notes): a record is returned iff it is in
the corpus, passes the single-pass text test (full normalized query is a
substring of the normalized title, or some tag is a substring of the query,
or the query is a substring of the joined tag string), and passes the
inclusive date window. -/
theorem c1_single_pass (corpus : List CaseRec) (today : Int) (qn : List Char)
    (dd dh : Option Date) (r : CaseRec) :
    r ∈ search_in corpus today qn dd dh ↔
      r ∈ corpus ∧ matchesQ qn r = true ∧ dateOk dd dh r = true :=
  mem_search_in corpus today qn dd dh r


/-- Evaluation helper: the clamp is the identity on `[0,1]`. -/
theorem clamp01_of (x : ℚ) (h0 : 0 ≤ x) (h1 : x ≤ 1) : clamp01 x = x := by
  unfold clamp01
  rw [min_eq_right h1, max_eq_right h0]

/-- Evaluation helper: `hybrid_score` on a record with a parseable date. -/
theorem hybrid_score_parsed (today : Int) (rel : ℚ) (s : String) (dt : Date)
    (h : parse_date (some s) = some dt) :
    hybrid_score today rel (some s)
      = 7/10 * clamp01 rel + 3/10 * recencyFrom today dt := by
  have hs : s.isEmpty = false := by
    rcases hse : s.isEmpty with _ | _
    · rfl
    · exfalso
      have hempty : s = "" := (String.isEmpty_iff s).mp hse
      rw [hempty] at h
      exact Option.noConfusion (h.symm.trans (show parse_date (some "") = none from rfl))
  simp only [hybrid_score, hs, Bool.false_eq_true, if_false, h]

/-- Evaluation helper: `hybrid_score` with a missing (`None`) date returns
the clamped relevance alone. -/
theorem hybrid_score_missing (today : Int) (rel : ℚ) :
    hybrid_score today rel none = clamp01 rel := by
  simp only [hybrid_score, if_true]

/-- Evaluation helper: `hybrid_score` with a non-empty but unparseable date
string uses the neutral recency 0.5. -/
theorem hybrid_score_unparsed (today : Int) (rel : ℚ) (s : String)
    (hs : s.isEmpty = false) (h : parse_date (some s) = none) :
    hybrid_score today rel (some s) = 7/10 * clamp01 rel + 3/10 * (1/2) := by
  simp only [hybrid_score, hs, Bool.false_eq_true, if_false, h]

/-- Evaluation helper: `recencyFrom` with the elapsed-days value computed. -/
theorem recencyFrom_eq (today : Int) (dt : Date) (d : Int)
    (hd : max 0 (today - (toDays dt : Int)) = d) :
    recencyFrom today dt = max 0 (1 - (d : ℚ) / 1095) := by
  unfold recencyFrom
  rw [hd]

/-- Claim C2, counterexample: for the corpus record dated 2022-11-03 seen on
2026-10-12 (elapsed 1439 days), `hybrid_score` yields `0.7·0.82 + 0.3·0` =
287/500, which no decay constant τ in the one-to-three-year range can express
as `0.7·0.82 + 0.3·exp(−1439/τ)`, because the exponential never reaches 0:
the recency component is a truncated linear decay, not an exponential. -/
theorem c2_cx :
    (toDays ⟨2026, 10, 12⟩ : Int) - (toDays ⟨2022, 11, 3⟩ : Int) = 1439
    ∧ hybrid_score (toDays ⟨2026, 10, 12⟩ : Int) (41/50) (some ("2022-11-03")) = 287/500
    ∧ ¬ ∃ τ : ℝ, 365 ≤ τ ∧ τ ≤ 1095 ∧
        ((hybrid_score (toDays ⟨2026, 10, 12⟩ : Int) (41/50) (some ("2022-11-03")) : ℚ) : ℝ)
          = 7/10 * (41/50) + 3/10 * Real.exp (-(1439/τ)) := by
  have hval : hybrid_score (toDays ⟨2026, 10, 12⟩ : Int) (41/50) (some ("2022-11-03"))
      = 287/500 := by
    rw [hybrid_score_parsed _ _ _ ⟨2022, 11, 3⟩ (by decide)]
    rw [recencyFrom_eq _ _ 1439 (by decide)]
    rw [max_eq_left (by norm_num : (1 : ℚ) - (1439 : Int) / 1095 ≤ 0)]
    rw [clamp01_of _ (by norm_num) (by norm_num)]
    norm_num
  refine ⟨by decide, hval, ?_⟩
  rintro ⟨τ, _, _, h⟩
  rw [hval] at h
  norm_num at h

/-- Claim C2, amended: for every record whose decision date parses, the
hybrid score is `0.7·(clamped relevance) + 0.3·recency` where the recency
component is the truncated linear three-year decay
`max(0, 1 − elapsed_days/1095)` (not an exponential); the recency component
and the hybrid score both lie in `[0,1]`. -/
theorem c2_hybrid_linear_decay (today : Int) (rel : ℚ) (s : String) (dt : Date)
    (h : parse_date (some s) = some dt) :
    hybrid_score today rel (some s)
        = 7/10 * clamp01 rel + 3/10 * recencyFrom today dt
      ∧ 0 ≤ recencyFrom today dt ∧ recencyFrom today dt ≤ 1
      ∧ 0 ≤ hybrid_score today rel (some s) ∧ hybrid_score today rel (some s) ≤ 1 := by
  have hrec0 : 0 ≤ recencyFrom today dt := le_max_left 0 _
  have hrec1 : recencyFrom today dt ≤ 1 := by
    unfold recencyFrom
    have hnn : (0 : ℚ) ≤ ((max 0 (today - (toDays dt : Int)) : Int) : ℚ) / 1095 := by
      have h0 : (0 : Int) ≤ max 0 (today - (toDays dt : Int)) := le_max_left 0 _
      have h0' : (0 : ℚ) ≤ ((max 0 (today - (toDays dt : Int)) : Int) : ℚ) := by
        exact_mod_cast h0
      positivity
    exact max_le (by norm_num) (by linarith)
  have hcl0 : 0 ≤ clamp01 rel := le_max_left 0 _
  have hcl1 : clamp01 rel ≤ 1 := max_le (by norm_num) (min_le_left 1 rel)
  have heq := hybrid_score_parsed today rel s dt h
  refine ⟨heq, hrec0, hrec1, ?_, ?_⟩
  · rw [heq]; positivity
  · rw [heq]; nlinarith

/-- Claim C2, witness: the amended statement at `today = 0`, relevance 1/2
and the parseable date 2022-11-03. -/
theorem c2_witness :
    hybrid_score 0 (1/2) (some ("2022-11-03"))
        = 7/10 * clamp01 (1/2) + 3/10 * recencyFrom 0 ⟨2022, 11, 3⟩
      ∧ 0 ≤ recencyFrom 0 ⟨2022, 11, 3⟩ ∧ recencyFrom 0 ⟨2022, 11, 3⟩ ≤ 1
      ∧ 0 ≤ hybrid_score 0 (1/2) (some ("2022-11-03"))
      ∧ hybrid_score 0 (1/2) (some ("2022-11-03")) ≤ 1 :=
  c2_hybrid_linear_decay 0 (1/2) ("2022-11-03") ⟨2022, 11, 3⟩ (by decide)

/-- Evaluation helper: `respond` on a non-empty taken list returns exactly
the formatted results. -/
theorem respond_resultados_of_ne (net : String → ProbeOutcome) (query orden : String)
    (experto va : Bool) (rq : Option (List Char)) (notasPre : List String)
    (taken : List CaseRec) (h : taken ≠ []) :
    (respond net query orden experto va rq notasPre taken).resultados
      = taken.map (formatResult net va) := by
  cases taken with
  | nil => exact absurd rfl h
  | cons a t => rfl

/-- Evaluation helper for the clamped elapsed-days value. -/
theorem max0_eval (a d : Int) (h1 : 0 ≤ a) (h2 : a = d) : max 0 a = d := by
  rw [max_eq_right h1, h2]

/-- Hybrid-key comparison on 2024-02-12: `ex2` scores no higher than `ex1`
(recency lifts the fresher, less relevant case above the more relevant one). -/
theorem hybridLe_d1_12 : hybridLe (toDays ⟨2024, 2, 12⟩ : Int) ex1 ex2 = true := by
  unfold hybridLe
  refine decide_eq_true ?_
  show hybrid_score (toDays ⟨2024, 2, 12⟩ : Int) (41/50) (some ("2022-11-03"))
    ≤ hybrid_score (toDays ⟨2024, 2, 12⟩ : Int) (19/25) (some ("2024-02-12"))
  rw [hybrid_score_parsed _ _ _ ⟨2022, 11, 3⟩ (by decide),
      hybrid_score_parsed _ _ _ ⟨2024, 2, 12⟩ (by decide),
      recencyFrom_eq _ _ 466 (max0_eval _ _ (by decide) (by decide)),
      recencyFrom_eq _ _ 0 (max0_eval _ _ (by decide) (by decide)),
      clamp01_of _ (by norm_num) (by norm_num), clamp01_of _ (by norm_num) (by norm_num),
      max_eq_right (by norm_num : (0:ℚ) ≤ 1 - ((466 : Int) : ℚ) / 1095),
      max_eq_right (by norm_num : (0:ℚ) ≤ 1 - ((0 : Int) : ℚ) / 1095)]
  norm_num

/-- Hybrid-key comparison on 2024-02-12: `ex3` scores no higher than `ex2`. -/
theorem hybridLe_d1_23 : hybridLe (toDays ⟨2024, 2, 12⟩ : Int) ex2 ex3 = true := by
  unfold hybridLe
  refine decide_eq_true ?_
  show hybrid_score (toDays ⟨2024, 2, 12⟩ : Int) (9/50) (some ("2023-05-10"))
    ≤ hybrid_score (toDays ⟨2024, 2, 12⟩ : Int) (41/50) (some ("2022-11-03"))
  rw [hybrid_score_parsed _ _ _ ⟨2023, 5, 10⟩ (by decide),
      hybrid_score_parsed _ _ _ ⟨2022, 11, 3⟩ (by decide),
      recencyFrom_eq _ _ 278 (max0_eval _ _ (by decide) (by decide)),
      recencyFrom_eq _ _ 466 (max0_eval _ _ (by decide) (by decide)),
      clamp01_of _ (by norm_num) (by norm_num), clamp01_of _ (by norm_num) (by norm_num),
      max_eq_right (by norm_num : (0:ℚ) ≤ 1 - ((278 : Int) : ℚ) / 1095),
      max_eq_right (by norm_num : (0:ℚ) ≤ 1 - ((466 : Int) : ℚ) / 1095)]
  norm_num

/-- Hybrid-key comparison far in the future (2124-01-01): all recencies have
decayed to 0, so `ex2` (relevance 0.82) now scores strictly above `ex1`
(relevance 0.76). -/
theorem hybridLe_d2_12 : hybridLe (toDays ⟨2124, 1, 1⟩ : Int) ex1 ex2 = false := by
  unfold hybridLe
  refine decide_eq_false ?_
  show ¬ (hybrid_score (toDays ⟨2124, 1, 1⟩ : Int) (41/50) (some ("2022-11-03"))
    ≤ hybrid_score (toDays ⟨2124, 1, 1⟩ : Int) (19/25) (some ("2024-02-12")))
  rw [hybrid_score_parsed _ _ _ ⟨2022, 11, 3⟩ (by decide),
      hybrid_score_parsed _ _ _ ⟨2024, 2, 12⟩ (by decide),
      recencyFrom_eq _ _ 36948 (max0_eval _ _ (by decide) (by decide)),
      recencyFrom_eq _ _ 36482 (max0_eval _ _ (by decide) (by decide)),
      clamp01_of _ (by norm_num) (by norm_num), clamp01_of _ (by norm_num) (by norm_num),
      max_eq_left (by norm_num : (1:ℚ) - ((36948 : Int) : ℚ) / 1095 ≤ 0),
      max_eq_left (by norm_num : (1:ℚ) - ((36482 : Int) : ℚ) / 1095 ≤ 0)]
  norm_num

/-- Hybrid-key comparison on 2124-01-01: `ex3` scores no higher than `ex2`. -/
theorem hybridLe_d2_23 : hybridLe (toDays ⟨2124, 1, 1⟩ : Int) ex2 ex3 = true := by
  unfold hybridLe
  refine decide_eq_true ?_
  show hybrid_score (toDays ⟨2124, 1, 1⟩ : Int) (9/50) (some ("2023-05-10"))
    ≤ hybrid_score (toDays ⟨2124, 1, 1⟩ : Int) (41/50) (some ("2022-11-03"))
  rw [hybrid_score_parsed _ _ _ ⟨2023, 5, 10⟩ (by decide),
      hybrid_score_parsed _ _ _ ⟨2022, 11, 3⟩ (by decide),
      recencyFrom_eq _ _ 36760 (max0_eval _ _ (by decide) (by decide)),
      recencyFrom_eq _ _ 36948 (max0_eval _ _ (by decide) (by decide)),
      clamp01_of _ (by norm_num) (by norm_num), clamp01_of _ (by norm_num) (by norm_num),
      max_eq_left (by norm_num : (1:ℚ) - ((36760 : Int) : ℚ) / 1095 ≤ 0),
      max_eq_left (by norm_num : (1:ℚ) - ((36948 : Int) : ℚ) / 1095 ≤ 0)]
  norm_num

/-- Hybrid-key comparison on 2124-01-01: `ex3` scores no higher than `ex1`. -/
theorem hybridLe_d2_13 : hybridLe (toDays ⟨2124, 1, 1⟩ : Int) ex1 ex3 = true := by
  unfold hybridLe
  refine decide_eq_true ?_
  show hybrid_score (toDays ⟨2124, 1, 1⟩ : Int) (9/50) (some ("2023-05-10"))
    ≤ hybrid_score (toDays ⟨2124, 1, 1⟩ : Int) (19/25) (some ("2024-02-12"))
  rw [hybrid_score_parsed _ _ _ ⟨2023, 5, 10⟩ (by decide),
      hybrid_score_parsed _ _ _ ⟨2024, 2, 12⟩ (by decide),
      recencyFrom_eq _ _ 36760 (max0_eval _ _ (by decide) (by decide)),
      recencyFrom_eq _ _ 36482 (max0_eval _ _ (by decide) (by decide)),
      clamp01_of _ (by norm_num) (by norm_num), clamp01_of _ (by norm_num) (by norm_num),
      max_eq_left (by norm_num : (1:ℚ) - ((36760 : Int) : ℚ) / 1095 ≤ 0),
      max_eq_left (by norm_num : (1:ℚ) - ((36482 : Int) : ℚ) / 1095 ≤ 0)]
  norm_num

/-- Concrete search evaluation: on 2024-02-12 the hybrid sort keeps the
filter order `ex1, ex2, ex3` for the query "urbanizable ordenación". -/
theorem search_d1_urb :
    search_in EXAMPLES (toDays ⟨2024, 2, 12⟩ : Int)
      (expand_query ("urbanizable ordenación")).1 none none = [ex1, ex2, ex3] := by
  unfold search_in
  rw [show EXAMPLES.filter (fun r =>
      matchesQ (expand_query ("urbanizable ordenación")).1 r && dateOk none none r)
      = [ex1, ex2, ex3] from rfl]
  simp [isort, insertOrd, hybridLe_d1_23, hybridLe_d1_12]

/-- Concrete search evaluation: on 2124-01-01 the hybrid sort orders the
same result set `ex2, ex1, ex3`. -/
theorem search_d2_urb :
    search_in EXAMPLES (toDays ⟨2124, 1, 1⟩ : Int)
      (expand_query ("urbanizable ordenación")).1 none none = [ex2, ex1, ex3] := by
  unfold search_in
  rw [show EXAMPLES.filter (fun r =>
      matchesQ (expand_query ("urbanizable ordenación")).1 r && dateOk none none r)
      = [ex1, ex2, ex3] from rfl]
  simp [isort, insertOrd, hybridLe_d2_23, hybridLe_d2_12, hybridLe_d2_13]

/-- Concrete endpoint evaluation on 2024-02-12 for "urbanizable ordenación". -/
theorem buscar_d1_urb :
    (buscar (fun _ => ProbeOutcome.exc) (toDays ⟨2024, 2, 12⟩ : Int)
        ("urbanizable ordenación") none none ("relevancia_desc") 10 false none).resultados
      = [formatResult (fun _ => ProbeOutcome.exc) false ex1,
         formatResult (fun _ => ProbeOutcome.exc) false ex2,
         formatResult (fun _ => ProbeOutcome.exc) false ex3] := by
  have h1 : (buscar (fun _ => ProbeOutcome.exc) (toDays ⟨2024, 2, 12⟩ : Int)
        ("urbanizable ordenación") none none ("relevancia_desc") 10 false none).resultados
      = (respond (fun _ => ProbeOutcome.exc) ("urbanizable ordenación") ("relevancia_desc")
          true false none [expertMsg]
          ((search_in EXAMPLES (toDays ⟨2024, 2, 12⟩ : Int)
            (expand_query ("urbanizable ordenación")).1 none none).take 10)).resultados := rfl
  rw [h1, search_d1_urb,
      show ([ex1, ex2, ex3].take 10) = [ex1, ex2, ex3] from rfl,
      respond_resultados_of_ne _ _ _ _ _ _ _ _ (List.cons_ne_nil _ _)]
  rfl

/-- Concrete endpoint evaluation on 2124-01-01 for "urbanizable ordenación". -/
theorem buscar_d2_urb :
    (buscar (fun _ => ProbeOutcome.exc) (toDays ⟨2124, 1, 1⟩ : Int)
        ("urbanizable ordenación") none none ("relevancia_desc") 10 false none).resultados
      = [formatResult (fun _ => ProbeOutcome.exc) false ex2,
         formatResult (fun _ => ProbeOutcome.exc) false ex1,
         formatResult (fun _ => ProbeOutcome.exc) false ex3] := by
  have h1 : (buscar (fun _ => ProbeOutcome.exc) (toDays ⟨2124, 1, 1⟩ : Int)
        ("urbanizable ordenación") none none ("relevancia_desc") 10 false none).resultados
      = (respond (fun _ => ProbeOutcome.exc) ("urbanizable ordenación") ("relevancia_desc")
          true false none [expertMsg]
          ((search_in EXAMPLES (toDays ⟨2124, 1, 1⟩ : Int)
            (expand_query ("urbanizable ordenación")).1 none none).take 10)).resultados := rfl
  rw [h1, search_d2_urb,
      show ([ex2, ex1, ex3].take 10) = [ex2, ex1, ex3] from rfl,
      respond_resultados_of_ne _ _ _ _ _ _ _ _ (List.cons_ne_nil _ _)]
  rfl

/-- Claim C3, counterexample: under the explicit relevance-only order mode
(`relevancia_desc`, also the default), the returned ordering is the hybrid
one: on 2024-02-12 the query "urbanizable ordenación" returns relevances
`[0.76, 0.82, 0.18]` (not sorted by relevance — recency put 0.76 first),
while the identical request far in the future returns `[0.82, 0.76, 0.18]`;
the ordering depends on the current date, so recency is not bypassed. -/
theorem c3_cx :
    ((buscar (fun _ => ProbeOutcome.exc) (toDays ⟨2024, 2, 12⟩ : Int)
        ("urbanizable ordenación") none none ("relevancia_desc") 10 false none).resultados.map
          (fun r => r.relevancia) = [19/25, 41/50, 9/50])
    ∧ ((buscar (fun _ => ProbeOutcome.exc) (toDays ⟨2124, 1, 1⟩ : Int)
        ("urbanizable ordenación") none none ("relevancia_desc") 10 false none).resultados.map
          (fun r => r.relevancia) = [41/50, 19/25, 9/50])
    ∧ ((19 : ℚ)/25 < 41/50) := by
  refine ⟨?_, ?_, by norm_num⟩
  · rw [buscar_d1_urb]
    simp only [List.map_cons, List.map_nil, formatResult_relevancia]
    rfl
  · rw [buscar_d2_urb]
    simp only [List.map_cons, List.map_nil, formatResult_relevancia]
    rfl

/-- Helper: a pairwise relation on the taken records transfers to the
response list through `formatResult`. -/
theorem respond_resultados_pairwise (net : String → ProbeOutcome) (query orden : String)
    (experto va : Bool) (rq : Option (List Char)) (notasPre : List String)
    (taken : List CaseRec) (Q : CaseRec → CaseRec → Prop)
    (hQ : taken.Pairwise Q) (P : Resultado → Resultado → Prop)
    (himp : ∀ a b, Q a b → P (formatResult net va a) (formatResult net va b)) :
    (respond net query orden experto va rq notasPre taken).resultados.Pairwise P := by
  rcases respond_resultados_sub net query orden experto va rq notasPre taken with h | h
  · rw [h]
    exact List.Pairwise.nil
  · rw [h]
    exact List.pairwise_map.mpr (hQ.imp (fun hab => himp _ _ hab))

/-- Helper: the `fecha_desc` mode yields a list pairwise descending in the
raw date string. -/
theorem buscar_fecha_desc_sorted (net : String → ProbeOutcome) (today : Int)
    (q : String) (de ha : Option String) (li : Nat) (va : Bool) (org : Option String) :
    ((buscar net today q de ha ("fecha_desc") li va org).resultados).Pairwise
      (fun x y => lexLe y.fecha.toList x.fecha.toList = true) := by
  unfold buscar
  dsimp only
  refine respond_resultados_pairwise _ _ _ _ _ _ _ _
    (fun a b => lexLe b.fecha.toList a.fecha.toList = true) ?_ _ ?_
  · refine List.Pairwise.sublist (List.take_sublist _ _) ?_
    unfold ordenStage
    rw [if_pos rfl]
    exact isort_pairwise (fun (a b : CaseRec) => lexLe b.fecha.toList a.fecha.toList)
      (fun (a b : CaseRec) => lexLe_total b.fecha.toList a.fecha.toList)
      (fun (a b c : CaseRec) h1 h2 =>
        lexLe_trans c.fecha.toList b.fecha.toList a.fecha.toList h2 h1) _
  · intro a b hab
    rw [formatResult_fecha, formatResult_fecha]
    exact hab

/-- Helper: the `fecha_asc` mode yields a list pairwise ascending in the
raw date string. -/
theorem buscar_fecha_asc_sorted (net : String → ProbeOutcome) (today : Int)
    (q : String) (de ha : Option String) (li : Nat) (va : Bool) (org : Option String) :
    ((buscar net today q de ha ("fecha_asc") li va org).resultados).Pairwise
      (fun x y => lexLe x.fecha.toList y.fecha.toList = true) := by
  unfold buscar
  dsimp only
  refine respond_resultados_pairwise _ _ _ _ _ _ _ _
    (fun a b => lexLe a.fecha.toList b.fecha.toList = true) ?_ _ ?_
  · refine List.Pairwise.sublist (List.take_sublist _ _) ?_
    unfold ordenStage
    rw [if_neg (by decide : ¬ ("fecha_asc" : String) = "fecha_desc"), if_pos rfl]
    exact isort_pairwise (fun (a b : CaseRec) => lexLe a.fecha.toList b.fecha.toList)
      (fun (a b : CaseRec) => lexLe_total a.fecha.toList b.fecha.toList)
      (fun (a b c : CaseRec) h1 h2 =>
        lexLe_trans a.fecha.toList b.fecha.toList c.fecha.toList h1 h2) _
  · intro a b hab
    rw [formatResult_fecha, formatResult_fecha]
    exact hab

/-- Claim C3, amended: the explicit date order modes (`fecha_desc`,
`fecha_asc`) re-sort by the raw date string only, bypassing the hybrid score
as ordering key: every response under them is pairwise ordered by date.  The
relevance-only mode `relevancia_desc` (the default), however, keeps the
hybrid recency-blended ordering (see the counterexample); hybrid scoring is
not bypassed there. -/
theorem c3_date_modes_bypass_recency (net : String → ProbeOutcome) (today : Int)
    (q : String) (de ha : Option String) (li : Nat) (va : Bool) (org : Option String) :
    ((buscar net today q de ha ("fecha_desc") li va org).resultados).Pairwise
      (fun x y => lexLe y.fecha.toList x.fecha.toList = true)
    ∧ ((buscar net today q de ha ("fecha_asc") li va org).resultados).Pairwise
      (fun x y => lexLe x.fecha.toList y.fecha.toList = true) :=
  ⟨buscar_fecha_desc_sorted net today q de ha li va org,
   buscar_fecha_asc_sorted net today q de ha li va org⟩

/-- Concrete search evaluation: on 2124-01-01 the query "fuera de ordenación"
matches `ex2, ex3`, in that hybrid order. -/
theorem search_d2_fue :
    search_in EXAMPLES (toDays ⟨2124, 1, 1⟩ : Int)
      (expand_query ("fuera de ordenación")).1 none none = [ex2, ex3] := by
  unfold search_in
  rw [show EXAMPLES.filter (fun r =>
      matchesQ (expand_query ("fuera de ordenación")).1 r && dateOk none none r)
      = [ex2, ex3] from rfl]
  simp [isort, insertOrd, hybridLe_d2_23]

/-- Concrete endpoint evaluation on 2124-01-01 for "fuera de ordenación". -/
theorem buscar_d2_fue :
    (buscar (fun _ => ProbeOutcome.exc) (toDays ⟨2124, 1, 1⟩ : Int)
        ("fuera de ordenación") none none ("relevancia_desc") 10 false none).resultados
      = [formatResult (fun _ => ProbeOutcome.exc) false ex2,
         formatResult (fun _ => ProbeOutcome.exc) false ex3] := by
  have h1 : (buscar (fun _ => ProbeOutcome.exc) (toDays ⟨2124, 1, 1⟩ : Int)
        ("fuera de ordenación") none none ("relevancia_desc") 10 false none).resultados
      = (respond (fun _ => ProbeOutcome.exc) ("fuera de ordenación") ("relevancia_desc")
          true false none [synMsg ["situación de fuera de ordenación"], expertMsg]
          ((search_in EXAMPLES (toDays ⟨2124, 1, 1⟩ : Int)
            (expand_query ("fuera de ordenación")).1 none none).take 10)).resultados := rfl
  rw [h1, search_d2_fue, show ([ex2, ex3].take 10) = [ex2, ex3] from rfl,
      respond_resultados_of_ne _ _ _ _ _ _ _ _ (List.cons_ne_nil _ _)]
  rfl

/-- Claim C4, counterexample: the top result for "fuera de ordenación" has
declared relevance 0.82; the response reports 0.82 itself, not the
percentage conversion `clamp01(0.82)·100 = 82` — no percentage conversion
(and no clamp) is applied to the reported relevance. -/
theorem c4_cx :
    ((buscar (fun _ => ProbeOutcome.exc) (toDays ⟨2124, 1, 1⟩ : Int)
        ("fuera de ordenación") none none ("relevancia_desc") 10 false none).resultados.map
          (fun r => r.relevancia)).head? = some (41/50)
    ∧ relPct (41/50) = 82
    ∧ ((41 : ℚ)/50 ≠ 82) := by
  refine ⟨?_, ?_, by norm_num⟩
  · rw [buscar_d2_fue]
    simp only [List.map_cons, List.head?_cons, formatResult_relevancia]
    rfl
  · unfold relPct
    rw [clamp01_of _ (by norm_num) (by norm_num)]
    norm_num

/-- Claim C4, amended: the reported relevance of every returned result is the
raw declared relevance of the underlying corpus record (no clamp, no
percentage conversion); every declared relevance in the bundled corpus lies
in `[0,1]`, hence so does every reported value (and in particular it lies in
`[0,100]`). -/
theorem c4_relevancia_raw_in_unit (net : String → ProbeOutcome) (today : Int)
    (query : String) (desde hasta : Option String) (orden : String) (limite : Nat)
    (va : Bool) (organo : Option String) (res : Resultado)
    (h : res ∈ (buscar net today query desde hasta orden limite va organo).resultados) :
    0 ≤ res.relevancia ∧ res.relevancia ≤ 1 := by
  rcases mem_buscar _ _ _ _ _ _ _ _ _ _ h with ⟨r, hr, hres⟩
  subst hres
  rw [formatResult_relevancia]
  have hcases : r = ex1 ∨ r = ex2 ∨ r = ex3 := by
    simpa [EXAMPLES] using hr
  rcases hcases with rfl | rfl | rfl
  · exact ⟨by norm_num [ex1], by norm_num [ex1]⟩
  · exact ⟨by norm_num [ex2], by norm_num [ex2]⟩
  · exact ⟨by norm_num [ex3], by norm_num [ex3]⟩

/-- Claim C4, witness: the amended statement at the top "fuera de
ordenación" result. -/
theorem c4_witness :
    0 ≤ (formatResult (fun _ => ProbeOutcome.exc) false ex2).relevancia
    ∧ (formatResult (fun _ => ProbeOutcome.exc) false ex2).relevancia ≤ 1 := by
  refine c4_relevancia_raw_in_unit (fun _ => ProbeOutcome.exc) (toDays ⟨2124, 1, 1⟩ : Int)
    ("fuera de ordenación") none none ("relevancia_desc") 10 false none _ ?_
  rw [buscar_d2_fue]
  exact List.mem_cons_self _ _

/-- Claim C5, counterexample: for a record with a missing (`None`) date,
`hybrid_score` returns the bare relevance (0.8), not
`0.7·0.8 + 0.3·0.5 = 0.71`: the neutral-midpoint recency applies only to
non-empty unparseable dates, not to missing ones. -/
theorem c5_cx :
    hybrid_score 0 (4/5) none = 4/5
    ∧ (4 : ℚ)/5 ≠ 7/10 * (4/5) + 3/10 * (1/2) := by
  constructor
  · rw [hybrid_score_missing, clamp01_of _ (by norm_num) (by norm_num)]
  · norm_num

/-- Claim C5, amended: a non-empty but unparseable decision date gets the
neutral recency 0.5 (score `0.7·clamped relevance + 0.15`); a missing
(`None` or empty) date instead drops the recency term entirely (score =
clamped relevance).  In both cases the record passes the date filter and is
not excluded from ranking. -/
theorem c5_unparsed_neutral_missing_bare (today : Int) (rel : ℚ) (s : String)
    (dd dh : Option Date) (r : CaseRec)
    (hs : s.isEmpty = false) (hp : parse_date (some s) = none)
    (hr : parse_date (some r.fecha) = none) :
    hybrid_score today rel (some s) = 7/10 * clamp01 rel + 3/10 * (1/2)
    ∧ hybrid_score today rel none = clamp01 rel
    ∧ dateOk dd dh r = true := by
  refine ⟨hybrid_score_unparsed today rel s hs hp, hybrid_score_missing today rel, ?_⟩
  unfold dateOk
  dsimp only
  rw [hr]
  cases dd <;> cases dh <;> rfl

/-- Claim C5, witness: the amended statement for the unparseable date
"not-a-date" and a record whose date "nope" does not parse. -/
theorem c5_witness :
    hybrid_score 0 (4/5) (some ("not-a-date")) = 7/10 * clamp01 (4/5) + 3/10 * (1/2)
    ∧ hybrid_score 0 (4/5) none = clamp01 (4/5)
    ∧ dateOk (some ⟨2020, 1, 1⟩) none { ex1 with fecha := "nope" } = true :=
  c5_unparsed_neutral_missing_bare 0 (4/5) ("not-a-date") (some ⟨2020, 1, 1⟩) none
    { ex1 with fecha := "nope" } (by decide) (by decide) (by decide)

/-- Claim C6, counterexample: `normalize_text` does not strip diacritics —
"urbanística" and "urbanistica" differ only in one accent yet normalize to
different strings (while case is folded: "URBANÍSTICA" normalizes to
"urbanística", accent intact).  Matching is therefore accent-sensitive. -/
theorem c6_cx :
    normalize_text ("urbanística").toList ≠ normalize_text ("urbanistica").toList
    ∧ normalize_text ("URBANÍSTICA").toList = normalize_text ("urbanística").toList := by
  constructor
  · decide
  · decide

/-- Claim C6, amended: `normalize_text` strips and collapses whitespace,
lowercases, normalizes curly quotes and strips surrounding quotes, but it
preserves diacritics.  Two strings differing only in letter case normalize
to the same string (case-insensitive matching), while accent differences
survive normalization (see the counterexample). -/
theorem c6_case_insensitive (l : List Char) :
    normalize_text (l.map pyUpper) = normalize_text l := by
  unfold normalize_text
  rw [pyStrip_map_pyUpper, map_pyLower_map_pyUpper]

/-- Concrete endpoint evaluation: "volumen disconforme" with link validation
against a network that always raises — the single result `ex3`. -/
theorem buscar_vol_exc :
    (buscar (fun _ => ProbeOutcome.exc) 0 ("volumen disconforme") none none
        ("relevancia_desc") 10 true none).resultados
      = [formatResult (fun _ => ProbeOutcome.exc) true ex3] := rfl

/-- Claim C7, counterexample: with validation requested and every probe
raising (network error / timeout — an inconclusive outcome), the result
falls back to the stable strategy, but the recorded validation outcome is
`False`, not the unknown/`None` the claim requires. -/
theorem c7_cx :
    ((buscar (fun _ => ProbeOutcome.exc) 0 ("volumen disconforme") none none
        ("relevancia_desc") 10 true none).resultados.map (fun r => r.enlace_directo_ok))
      = [some false]
    ∧ ((buscar (fun _ => ProbeOutcome.exc) 0 ("volumen disconforme") none none
        ("relevancia_desc") 10 true none).resultados.map (fun r => r.estrategia_enlace))
      = [some ("estable")]
    ∧ (some false ≠ (none : Option Bool)) := by
  refine ⟨rfl, rfl, by decide⟩

/-- Claim C7, amended: when validation is requested and the probe of the
direct link does not confirm success (exception, timeout, non-200 status or
error-page content all make `validar_enlace` return `False` — the code does
not distinguish inconclusive from confirmed-broken), the preferred link is
the stable link with strategy "estable" and a broken-link note is emitted,
but the recorded validation outcome is `some false`, never `none`. -/
theorem c7_inconclusive_stable_false (net : String → ProbeOutcome)
    (rq : Option (List Char)) (r : CaseRec) (u : String)
    (hd : (build_links r).url_directo = some u) (hu : u.isEmpty = false)
    (hv : validar_enlace net u = false) :
    (formatResult net true r).estrategia_enlace = some ("estable")
    ∧ (formatResult net true r).enlace_preferido = (build_links r).url_estable
    ∧ (formatResult net true r).enlace_directo_ok = some false
    ∧ brokenFor r.id_cendoj ∈ resultNotes net true rq r := by
  unfold formatResult resultNotes
  dsimp only
  rw [hd]
  dsimp only
  rw [hu, hv]
  simp only [Bool.false_eq_true, if_false, if_true]
  refine ⟨trivial, trivial, trivial, ?_⟩
  exact List.mem_append_left _ (List.mem_singleton_self _)

/-- Claim C7, witness: the amended statement for `ex2` against an
always-raising network. -/
theorem c7_witness :
    (formatResult (fun _ => ProbeOutcome.exc) true ex2).estrategia_enlace = some ("estable")
    ∧ (formatResult (fun _ => ProbeOutcome.exc) true ex2).enlace_preferido
        = (build_links ex2).url_estable
    ∧ (formatResult (fun _ => ProbeOutcome.exc) true ex2).enlace_directo_ok = some false
    ∧ brokenFor ex2.id_cendoj ∈ resultNotes (fun _ => ProbeOutcome.exc) true none ex2 :=
  c7_inconclusive_stable_false (fun _ => ProbeOutcome.exc) none ex2
    (CENDOJ_DIRECTO_PRE ++ "28079130012022000456") rfl (by decide) rfl

/-- Claim C8: for every returned result the strategy tag is exactly one of
"directo"/"estable", the preferred link equals the URL built for that
strategy, and "directo" is reported only when validation was not requested
or the validation probe explicitly confirmed success (in fact only in the
latter case). -/
theorem c8_strategy_invariant (net : String → ProbeOutcome) (today : Int)
    (query : String) (desde hasta : Option String) (orden : String) (limite : Nat)
    (va : Bool) (organo : Option String) (res : Resultado)
    (h : res ∈ (buscar net today query desde hasta orden limite va organo).resultados) :
    (res.estrategia_enlace = some ("directo") ∨ res.estrategia_enlace = some ("estable"))
    ∧ (res.estrategia_enlace = some ("directo") → res.enlace_preferido = res.url_directo)
    ∧ (res.estrategia_enlace = some ("estable") → res.enlace_preferido = res.url_estable)
    ∧ (res.estrategia_enlace = some ("directo") →
        va = false ∨ ∃ u, res.url_directo = some u ∧ validar_enlace net u = true) := by
  rcases mem_buscar _ _ _ _ _ _ _ _ _ _ h with ⟨r, _, hres⟩
  subst hres
  unfold formatResult
  dsimp only
  split
  case isTrue hva =>
    split
    case h_1 u heq =>
      split
      case isTrue hue =>
        refine ⟨Or.inr rfl, ?_, fun _ => rfl, ?_⟩
        · intro hc
          exact absurd (Option.some.inj hc) (by decide)
        · intro hc
          exact absurd (Option.some.inj hc) (by decide)
      case isFalse hue =>
        split
        case isTrue hok =>
          refine ⟨Or.inl rfl, ?_, ?_, ?_⟩
          · intro _
            show some u = (build_links r).url_directo
            rw [heq]
          · intro hc
            exact absurd (Option.some.inj hc) (by decide)
          · intro _
            exact Or.inr ⟨u, heq, hok⟩
        case isFalse hok =>
          refine ⟨Or.inr rfl, ?_, fun _ => rfl, ?_⟩
          · intro hc
            exact absurd (Option.some.inj hc) (by decide)
          · intro hc
            exact absurd (Option.some.inj hc) (by decide)
    case h_2 heq =>
      refine ⟨Or.inr rfl, ?_, fun _ => rfl, ?_⟩
      · intro hc
        exact absurd (Option.some.inj hc) (by decide)
      · intro hc
        exact absurd (Option.some.inj hc) (by decide)
  case isFalse hva =>
    refine ⟨Or.inr rfl, ?_, fun _ => rfl, ?_⟩
    · intro hc
      exact absurd (Option.some.inj hc) (by decide)
    · intro _
      exact Or.inl (by revert hva; cases va <;> simp)

/-- Claim C8, witness: the invariant at the "volumen disconforme" result
validated against a network that answers 200 with a clean body. -/
theorem c8_witness :
    (((formatResult (fun _ => ProbeOutcome.resp 200 ("ok")) true ex3).estrategia_enlace
        = some ("directo"))
      ∨ ((formatResult (fun _ => ProbeOutcome.resp 200 ("ok")) true ex3).estrategia_enlace
        = some ("estable")))
    ∧ ((formatResult (fun _ => ProbeOutcome.resp 200 ("ok")) true ex3).estrategia_enlace
          = some ("directo") →
        (formatResult (fun _ => ProbeOutcome.resp 200 ("ok")) true ex3).enlace_preferido
          = (formatResult (fun _ => ProbeOutcome.resp 200 ("ok")) true ex3).url_directo)
    ∧ ((formatResult (fun _ => ProbeOutcome.resp 200 ("ok")) true ex3).estrategia_enlace
          = some ("estable") →
        (formatResult (fun _ => ProbeOutcome.resp 200 ("ok")) true ex3).enlace_preferido
          = (formatResult (fun _ => ProbeOutcome.resp 200 ("ok")) true ex3).url_estable)
    ∧ ((formatResult (fun _ => ProbeOutcome.resp 200 ("ok")) true ex3).estrategia_enlace
          = some ("directo") →
        true = false ∨ ∃ u, (formatResult (fun _ => ProbeOutcome.resp 200 ("ok")) true
            ex3).url_directo = some u
          ∧ validar_enlace (fun _ => ProbeOutcome.resp 200 ("ok")) u = true) := by
  refine c8_strategy_invariant (fun _ => ProbeOutcome.resp 200 ("ok")) 0
    ("volumen disconforme") none none ("relevancia_desc") 10 true none _ ?_
  rw [show (buscar (fun _ => ProbeOutcome.resp 200 ("ok")) 0 ("volumen disconforme") none none
      ("relevancia_desc") 10 true none).resultados
      = [formatResult (fun _ => ProbeOutcome.resp 200 ("ok")) true ex3] from rfl]
  exact List.mem_cons_self _ _

/-- Helper: a message present among the pre-collected notes appears in the
note of any non-empty response. -/
theorem respond_notaHas_of_mem (net : String → ProbeOutcome) (query orden : String)
    (experto va : Bool) (rq : Option (List Char)) (notasPre : List String)
    (taken : List CaseRec) (msg : String) (hmem : msg ∈ notasPre)
    (hne : (respond net query orden experto va rq notasPre taken).resultados ≠ []) :
    notaHas msg (respond net query orden experto va rq notasPre taken) = true := by
  obtain ⟨s, hs, hsub⟩ := respondNota_hasSub orden experto
    (notasPre ++ (taken.map (resultNotes net va rq)).flatten) msg
    (List.mem_append_left _ hmem)
  rw [notaHas_eq _ _ s ((respond_nota_of_nonempty _ _ _ _ _ _ _ _ hne).trans hs)]
  exact hsub

/-- Claim C9, amended: when both bounds parse, an ordered range is used
as-is and an inverted range is swapped (flagging the correction); whenever
the final result set is non-empty, the response note states the correction.
(When the result set is empty, the generic no-results note is returned and
the correction message is dropped — see the counterexample.) -/
theorem c9_range_swap (net : String → ProbeOutcome) (today : Int) (query : String)
    (desde hasta : Option String) (orden : String) (limite : Nat) (va : Bool)
    (organo : Option String) (a b : Date)
    (hd : parse_date desde = some a) (hh : parse_date hasta = some b) :
    (toDays a ≤ toDays b →
      fixRange (parse_date desde) (parse_date hasta) = (some a, some b, false))
    ∧ (toDays b < toDays a →
      fixRange (parse_date desde) (parse_date hasta) = (some b, some a, true))
    ∧ (toDays b < toDays a →
      (buscar net today query desde hasta orden limite va organo).resultados ≠ [] →
      notaHas swapMsg (buscar net today query desde hasta orden limite va organo) = true) := by
  refine ⟨?_, ?_, ?_⟩
  · intro hle
    rw [hd, hh]
    unfold fixRange
    dsimp only
    rw [if_neg (by omega)]
  · intro hlt
    rw [hd, hh]
    unfold fixRange
    dsimp only
    rw [if_pos hlt]
  · intro hlt hne
    have hfix : fixRange (parse_date desde) (parse_date hasta) = (some b, some a, true) := by
      rw [hd, hh]
      unfold fixRange
      dsimp only
      rw [if_pos hlt]
    unfold buscar at hne ⊢
    dsimp only at hne ⊢
    rw [hfix] at hne ⊢
    exact respond_notaHas_of_mem _ _ _ _ _ _ _ _ _ (by simp) hne

/-- Claim C9, counterexample: the inverted range 2031-01-01/2030-01-01 is
swapped (both dates parse and the range is inverted), the swapped window
excludes every corpus case, and the resulting empty response's note does
not state the correction. -/
theorem c9_cx :
    parse_date (some ("2031-01-01")) = some ⟨2031, 1, 1⟩
    ∧ parse_date (some ("2030-01-01")) = some ⟨2030, 1, 1⟩
    ∧ toDays ⟨2030, 1, 1⟩ < toDays ⟨2031, 1, 1⟩
    ∧ (buscar (fun _ => ProbeOutcome.exc) 0 ("fuera de ordenación") (some ("2031-01-01"))
        (some ("2030-01-01")) ("relevancia_desc") 10 false none).total = 0
    ∧ notaHas swapMsg (buscar (fun _ => ProbeOutcome.exc) 0 ("fuera de ordenación")
        (some ("2031-01-01")) (some ("2030-01-01")) ("relevancia_desc") 10 false none)
      = false := by
  refine ⟨by decide, by decide, by decide, rfl, by decide⟩

/-- Claim C9, witness: with the inverted range 2023-01-01/2020-01-01 and the
query "fuera de ordenación" the result set is non-empty (the swapped window
keeps the 2022-11-03 case) and the note states the correction. -/
theorem c9_witness :
    notaHas swapMsg (buscar (fun _ => ProbeOutcome.exc) 0 ("fuera de ordenación")
      (some ("2023-01-01")) (some ("2020-01-01")) ("relevancia_desc") 10 false none)
      = true := by
  refine (c9_range_swap (fun _ => ProbeOutcome.exc) 0 ("fuera de ordenación")
    (some ("2023-01-01")) (some ("2020-01-01")) ("relevancia_desc") 10 false none
    ⟨2023, 1, 1⟩ ⟨2020, 1, 1⟩ (by decide) (by decide)).2.2 (by decide) ?_
  rw [show (buscar (fun _ => ProbeOutcome.exc) 0 ("fuera de ordenación")
      (some ("2023-01-01")) (some ("2020-01-01")) ("relevancia_desc") 10 false none).resultados
      = [formatResult (fun _ => ProbeOutcome.exc) false ex2] from rfl]
  exact List.cons_ne_nil _ _

/-- Claim C10: with `validar_enlaces = False`, every returned result uses
the stable strategy, its preferred link is its stable link, its validation
outcome is `None`, and the stable link is never `None`; moreover
`build_links` always produces a stable URL, falling back to the bare portal
search URL when the record has neither an ECLI nor a ROJ identifier. -/
theorem c10_default_stable (net : String → ProbeOutcome) (today : Int)
    (query : String) (desde hasta : Option String) (orden : String) (limite : Nat)
    (organo : Option String) (res : Resultado)
    (h : res ∈ (buscar net today query desde hasta orden limite false organo).resultados) :
    res.estrategia_enlace = some ("estable")
    ∧ res.enlace_preferido = res.url_estable
    ∧ res.enlace_directo_ok = none
    ∧ res.url_estable ≠ none
    ∧ (∀ r : CaseRec, pyStripStr (r.ecli.getD "") = "" → pyStripStr (r.roj.getD "") = "" →
        (build_links r).url_estable = some PORTAL_BUSCADOR) := by
  rcases mem_buscar _ _ _ _ _ _ _ _ _ _ h with ⟨r, _, hres⟩
  subst hres
  refine ⟨rfl, rfl, rfl, ?_, ?_⟩
  · show (build_links r).url_estable ≠ none
    unfold build_links
    dsimp only
    exact Option.some_ne_none _
  · intro r2 he hr2
    unfold build_links
    dsimp only
    rw [he, hr2]
    rfl

/-- Claim C10, witness: the statement at the single "volumen disconforme"
result of an unvalidated request. -/
theorem c10_witness :
    (formatResult (fun _ => ProbeOutcome.exc) false ex3).estrategia_enlace = some ("estable")
    ∧ (formatResult (fun _ => ProbeOutcome.exc) false ex3).enlace_preferido
        = (formatResult (fun _ => ProbeOutcome.exc) false ex3).url_estable
    ∧ (formatResult (fun _ => ProbeOutcome.exc) false ex3).enlace_directo_ok = none
    ∧ (formatResult (fun _ => ProbeOutcome.exc) false ex3).url_estable ≠ none
    ∧ (∀ r : CaseRec, pyStripStr (r.ecli.getD "") = "" → pyStripStr (r.roj.getD "") = "" →
        (build_links r).url_estable = some PORTAL_BUSCADOR) := by
  refine c10_default_stable (fun _ => ProbeOutcome.exc) 0 ("volumen disconforme")
    none none ("relevancia_desc") 10 none _ ?_
  rw [show (buscar (fun _ => ProbeOutcome.exc) 0 ("volumen disconforme") none none
      ("relevancia_desc") 10 false none).resultados
      = [formatResult (fun _ => ProbeOutcome.exc) false ex3] from rfl]
  exact List.mem_cons_self _ _
